import Mathlib

/-!
Verification of the OU vs. public-AAU foreign-language enrollment dashboard
(`app.py`) against its natural-language specification.

The dataset is a list of enrollment records with columns `LANGUAGE`, `UNIV`,
`SRVY_YEAR`, `UG TOTAL`; the `UG TOTAL` value may be absent (pandas `NaN`),
modelled here as `Option Int` (`none` = absent/NaN).  Pandas dataframes are
modelled as lists of records; every operation the app performs on them
(filtering, descending sort with NaN last, 1-based rank assignment, mean with
NaN skipping, group-by-year with sorted keys, CSV serialization) is translated
into an executable Lean function.
-/

/-- One row of `institutions.csv`.  Column order per the input-file contract:
`LANGUAGE`, `UNIV`, `SRVY_YEAR`, `UG TOTAL`; the last is nullable. -/
structure Row where
  language : String
  univ : String
  srvy_year : Int
  ug_total : Option Int
deriving DecidableEq

/-- The distinguished home institution, `'U OF OKLAHOMA'` in `app.py`. -/
def homeUniv : String := "U OF OKLAHOMA"

/-- The fixed ranking year, `2021` in `app.py` line 24. -/
def targetYear : Int := 2021

/-- `lang_df = institutions[institutions['LANGUAGE'] == selected_language]`. -/
def lang_df (d : List Row) (l : String) : List Row :=
  d.filter (fun r => r.language == l)

/-- Python `int()` applied to a (rational) float: truncation toward zero,
i.e. floor for nonnegative arguments and ceiling for negative ones. -/
def pyInt (q : Rat) : Int := if 0 ≤ q then ⌊q⌋ else ⌈q⌉

/-- The present (non-NaN) values of a nullable numeric series. -/
def presentVals (xs : List (Option Int)) : List Int := xs.filterMap id

/-- Pandas `Series.mean()`: NaN values are skipped; the result is NaN
(here `none`) when no non-NaN value exists. -/
def seriesMean (xs : List (Option Int)) : Option Rat :=
  let vs := presentVals xs
  if vs.length = 0 then none else some ((vs.sum : Rat) / (vs.length : Rat))

/-- Comparison order used by `sort_values('UG TOTAL', ascending=False)`:
descending on present values, with NaN (`none`) placed last
(pandas default `na_position='last'`). -/
def descPair : Option Int → Option Int → Bool
  | some v, some w => decide (w ≤ v)
  | some _, none => true
  | none, some _ => false
  | none, none => true

/-- Row-level sort relation for the ranking sort. -/
def rowBefore (a b : Row) : Prop := descPair a.ug_total b.ug_total = true

instance : DecidableRel rowBefore :=
  fun a b => inferInstanceAs (Decidable (descPair a.ug_total b.ug_total = true))

instance : IsTotal Row rowBefore where
  total a b := by
    unfold rowBefore
    cases ha : a.ug_total <;> cases hb : b.ug_total <;> simp [descPair]
    exact Int.le_total _ _

instance : IsTrans Row rowBefore where
  trans a b c hab hbc := by
    unfold rowBefore at *
    cases ha : a.ug_total <;> cases hb : b.ug_total <;> cases hc : c.ug_total <;>
      simp_all [descPair]
    omega

/-- The rows of the selected language restricted to the target year:
`lang_df[lang_df['SRVY_YEAR'] == 2021]`. -/
def yearFiltered (d : List Row) (l : String) : List Row :=
  (lang_df d l).filter (fun r => r.srvy_year == targetYear)

/-- The sorted rows of `ranking_df`:
`lang_df[lang_df['SRVY_YEAR'] == 2021].sort_values('UG TOTAL', ascending=False)`. -/
def ranking_rows (d : List Row) (l : String) : List Row :=
  List.insertionSort rowBefore (yearFiltered d l)

/-- `ranking_df` after `ranking_df['RANK'] = pd.RangeIndex(start=1, stop=len+1)`:
each sorted row paired with its 1-based rank. -/
def ranking_df (d : List Row) (l : String) : List (Nat × Row) :=
  List.zip (List.range' 1 (ranking_rows d l).length) (ranking_rows d l)

/-- The displayed table `filtered_df = ranking_df[['RANK','UNIV','UG TOTAL']]`. -/
def filtered_df (d : List Row) (l : String) : List (Nat × String × Option Int) :=
  (ranking_df d l).map (fun p => (p.1, p.2.univ, p.2.ug_total))

/-- `ou_df = lang_df[lang_df['UNIV'] == 'U OF OKLAHOMA']`. -/
def ou_df (d : List Row) (l : String) : List Row :=
  (lang_df d l).filter (fun r => r.univ == homeUniv)

/-- `other_df = lang_df[lang_df['UNIV'] != 'U OF OKLAHOMA']`. -/
def other_df (d : List Row) (l : String) : List Row :=
  (lang_df d l).filter (fun r => !(r.univ == homeUniv))

/-- `avg_other = other_df['UG TOTAL'].mean()` followed by
`avg_other = int(avg_other) if not pd.isna(avg_other) else None`. -/
def avg_other_val (d : List Row) (l : String) : Option Int :=
  (seriesMean ((other_df d l).map (fun r => r.ug_total))).map pyInt

/-- `ou_total = ou_df['UG TOTAL'].iloc[0] if not ou_df.empty else None` followed by
`ou_total = int(ou_total) if ou_total is not None else None`.  When `ou_df` has a
first row whose `UG TOTAL` is NaN, the first line yields NaN (which is not
`None`), so the second line evaluates `int(NaN)` and raises `ValueError`. -/
def ou_total_step (d : List Row) (l : String) : Except String (Option Int) :=
  match ou_df d l with
  | [] => Except.ok none
  | r :: _ =>
    match r.ug_total with
    | none => Except.error "ValueError: cannot convert float NaN to integer"
    | some v => Except.ok (some v)

/-- The user-visible warnings the app can emit. -/
inductive Warning
  | peerMissing
  | ouMissing
  | combined
deriving DecidableEq

/-- A Python value as the comparison block manipulates it: an int, a string
(after `avg_other = "none"`), or `None`. -/
inductive PyVal
  | vint : Int → PyVal
  | vstr : String → PyVal
  | vnone : PyVal
deriving DecidableEq

/-- The module-level comparison block of `app.py` (lines 69-100): computes
`avg_other` and `ou_total`, emits warnings in source order, and either renders
the two-row comparison table (`true`) or only the combined warning (`false`).
Returns `Except.error` when the Python code would raise. -/
def comparison_block (d : List Row) (l : String) :
    Except String (List Warning × Bool) :=
  match ou_total_step d l with
  | Except.error e => Except.error e
  | Except.ok ou_total =>
    let avg0 : PyVal :=
      match avg_other_val d l with
      | some n => PyVal.vint n
      | none => PyVal.vnone
    let w1 : List Warning := if avg0 = PyVal.vnone then [Warning.peerMissing] else []
    let avg1 : PyVal := if avg0 = PyVal.vnone then PyVal.vstr "none" else avg0
    let w2 : List Warning := if ou_total = none then [Warning.ouMissing] else []
    if avg1 = PyVal.vnone ∧ ou_total = none then
      Except.ok (w1 ++ w2 ++ [Warning.combined], false)
    else
      Except.ok (w1 ++ w2, true)

/-- `ou[ou['LANGUAGE'] == lang]` where `ou = institutions[UNIV == 'U OF OKLAHOMA']`
(trend function, all years). -/
def ou_lang_rows (d : List Row) (l : String) : List Row :=
  (d.filter (fun r => r.univ == homeUniv)).filter (fun r => r.language == l)

/-- `aau[aau['LANGUAGE'] == lang]` where `aau = institutions[~UNIV.isin([OU])]`. -/
def aau_lang_rows (d : List Row) (l : String) : List Row :=
  (d.filter (fun r => !(r.univ == homeUniv))).filter (fun r => r.language == l)

/-- The distinct survey years of a row set, sorted ascending — pandas `groupby`
sorts its group keys ascending by default. -/
def yearsSorted (rows : List Row) : List Int :=
  List.insertionSort (fun a b => a ≤ b) ((rows.map (fun r => r.srvy_year)).dedup)

/-- `df.groupby(['LANGUAGE','SRVY_YEAR'])['UG TOTAL'].mean().reset_index()` for a
frame whose `LANGUAGE` column is constant: one output row per distinct year in
ascending order, carrying the NaN-skipping mean of that year's `UG TOTAL`. -/
def groupby_year_mean (rows : List Row) : List (Int × Option Rat) :=
  (yearsSorted rows).map
    (fun y => (y, seriesMean ((rows.filter (fun r => r.srvy_year == y)).map (fun r => r.ug_total))))

/-- Outcome of `lang_compare_streamlit`: either the early no-data return, or a
rendered chart with its warnings and the two (possibly empty) series. -/
inductive TrendResult
  | noData : TrendResult
  | chart : List Warning → List (Int × Option Rat) → List (Int × Option Rat) → TrendResult
deriving DecidableEq

/-- `lang_compare_streamlit(lang)` from `app.py` lines 108-177: early no-data
return when both filtered frames are empty, otherwise per-side warnings (in
source order) and a chart holding the two grouped series. -/
def lang_compare_streamlit (d : List Row) (l : String) : TrendResult :=
  if ou_lang_rows d l = [] ∧ aau_lang_rows d l = [] then TrendResult.noData
  else
    TrendResult.chart
      ((if groupby_year_mean (ou_lang_rows d l) = [] then [Warning.ouMissing] else []) ++
       (if groupby_year_mean (aau_lang_rows d l) = [] then [Warning.peerMissing] else []))
      (groupby_year_mean (ou_lang_rows d l))
      (groupby_year_mean (aau_lang_rows d l))

/-- One serialized CSV cell: `to_csv` writes strings, ints, nullable floats
(NaN as an empty field) and the rank index. -/
inductive Cell
  | cs : String → Cell
  | ci : Int → Cell
  | co : Option Int → Cell
  | cn : Nat → Cell
deriving DecidableEq

/-- Header row written by `ranking_df.to_csv(index=False)`: every column of the
input file in order, then the appended `RANK` column.  No pandas row index. -/
def csvHeader : List String := ["LANGUAGE", "UNIV", "SRVY_YEAR", "UG TOTAL", "RANK"]

/-- One data row of `ranking_df.to_csv(index=False)`. -/
def rowCells (p : Nat × Row) : List Cell :=
  [Cell.cs p.2.language, Cell.cs p.2.univ, Cell.ci p.2.srvy_year,
   Cell.co p.2.ug_total, Cell.cn p.1]

/-- `csv = ranking_df.to_csv(index=False)` (app.py line 186): header plus the
ranked rows of the selected language, all columns, no index column. -/
def ranking_csv (d : List Row) (l : String) : List String × List (List Cell) :=
  (csvHeader, (ranking_df d l).map rowCells)

/-- A `st.download_button` invocation: label, payload, file name, MIME type. -/
structure DownloadButton where
  label : String
  data : List String × List (List Cell)
  file_name : String
  mime : String
deriving DecidableEq

/-- The first download button (app.py lines 188-193). -/
def rankings_download (d : List Row) (l : String) : DownloadButton :=
  { label := "Download Rankings as CSV"
    data := ranking_csv d l
    file_name := l ++ "_rankings.csv"
    mime := "text/csv" }

/-- The second download button (app.py lines 198-203).  Its `data` argument is
the same `csv` variable computed on line 186 from `ranking_df`. -/
def all_data_download (d : List Row) (l : String) : DownloadButton :=
  { label := "Download All Data"
    data := ranking_csv d l
    file_name := "institutions.csv"
    mime := "text/csv" }

/-- Modelled from the spec: the input file `institutions.csv` is not in the
repository, so the claim-side notion of serializing the ENTIRE unfiltered
dataset is taken from the spec's words ("the entire unfiltered dataset"):
header plus one row per record, in file order, without rank. -/
def full_dataset_csv (d : List Row) : List String × List (List Cell) :=
  (["LANGUAGE", "UNIV", "SRVY_YEAR", "UG TOTAL"],
   d.map (fun r => [Cell.cs r.language, Cell.cs r.univ, Cell.ci r.srvy_year, Cell.co r.ug_total]))

/-- The spec's concrete-scenario dataset (spec section 8). -/
def exA : List Row :=
  [⟨"Spanish", "U OF OKLAHOMA", 2021, some 500⟩,
   ⟨"Spanish", "OTHER U", 2021, some 300⟩,
   ⟨"Spanish", "THIRD U", 2021, some 700⟩]

/-- `exA` extended with a French row, so two languages are selectable. -/
def exB : List Row := exA ++ [⟨"French", "U OF OKLAHOMA", 2021, some 40⟩]

/-- A language with peer rows in two different survey years. -/
def exC3 : List Row :=
  [⟨"Spanish", "OTHER U", 2020, some 100⟩,
   ⟨"Spanish", "OTHER U", 2021, some 300⟩,
   ⟨"Spanish", "U OF OKLAHOMA", 2021, some 50⟩]

/-- A dataset whose only OU row for Spanish has an absent `UG TOTAL`. -/
def exC6 : List Row := [⟨"Spanish", "U OF OKLAHOMA", 2021, none⟩]

/-- Peers whose mean `UG TOTAL` is not an integer. -/
def exC8 : List Row :=
  [⟨"Spanish", "A UNIV", 2021, some 1⟩,
   ⟨"Spanish", "B UNIV", 2021, some 2⟩,
   ⟨"Spanish", "U OF OKLAHOMA", 2021, some 2⟩]

/-- A language present only at the home institution (no peer rows). -/
def exNoPeers : List Row := [⟨"French", "U OF OKLAHOMA", 2021, some 5⟩]

/-- Spec-side definition for the refinement check of the peer average: the
exact arithmetic mean of the peers' present `ug_total` values, absent when
there is none ("arithmetic mean of `peers.ug_total`; undefined ... when
`peers` is empty"). -/
def peer_mean_spec (d : List Row) (l : String) : Option Rat :=
  seriesMean ((other_df d l).map (fun r => r.ug_total))

/-- Spec-side definition for the refinement check of claim C3's reading of the
comparison: the peer mean computed only over the rows already filtered to the
target year. -/
def peer_mean_year_filtered (d : List Row) (l : String) : Option Rat :=
  seriesMean (((yearFiltered d l).filter (fun r => !(r.univ == homeUniv))).map (fun r => r.ug_total))

/-- Unfolding lemma for `seriesMean`. -/
lemma seriesMean_eq (xs : List (Option Int)) :
    seriesMean xs = if (presentVals xs).length = 0 then none
      else some (((presentVals xs).sum : Rat) / ((presentVals xs).length : Rat)) := rfl

/-- Truncation toward zero of an integer-over-natural quotient is `Int.tdiv`. -/
lemma pyInt_intCast_div_natCast (s : Int) (n : Nat) :
    pyInt ((s : Rat) / (n : Rat)) = Int.tdiv s (n : Int) := by
  rcases Nat.eq_zero_or_pos n with hn | hn
  · subst hn
    simp [pyInt]
  · rcases le_or_lt 0 s with hs | hs
    · rw [pyInt, if_pos (div_nonneg (by exact_mod_cast hs) (by positivity)),
        Rat.floor_intCast_div_natCast,
        Int.tdiv_eq_ediv hs (Int.natCast_nonneg n)]
    · have h1 : (s : Rat) / (n : Rat) < 0 :=
        div_neg_of_neg_of_pos (by exact_mod_cast hs) (by exact_mod_cast hn)
      rw [pyInt, if_neg (not_le.mpr h1)]
      have hsub : (s : Rat) / (n : Rat) = -(((-s : Int) : Rat) / (n : Rat)) := by
        push_cast
        ring
      rw [hsub, Int.ceil_neg, Rat.floor_intCast_div_natCast]
      have h2 : Int.tdiv (-s) ((n : Nat) : Int) = (-s) / ((n : Nat) : Int) :=
        Int.tdiv_eq_ediv (by omega) (Int.natCast_nonneg n)
      have h3 : Int.tdiv s (n : Int) = -Int.tdiv (-s) ((n : Nat) : Int) := by
        rw [← Int.neg_tdiv, neg_neg]
      rw [h3, h2]

/-- `int()` of a NaN-skipping mean, computed by integer truncating division. -/
lemma map_pyInt_seriesMean (xs : List (Option Int)) :
    (seriesMean xs).map pyInt =
      if (presentVals xs).length = 0 then none
      else some (Int.tdiv (presentVals xs).sum ((presentVals xs).length : Int)) := by
  rw [seriesMean_eq]
  by_cases h : (presentVals xs).length = 0
  · simp [h]
  · rw [if_neg h, if_neg h, Option.map_some', pyInt_intCast_div_natCast]

/-- Computation form of `avg_other_val`. -/
lemma avg_other_val_eq (d : List Row) (l : String) :
    avg_other_val d l =
      if (presentVals ((other_df d l).map (fun r => r.ug_total))).length = 0 then none
      else some (Int.tdiv
        (presentVals ((other_df d l).map (fun r => r.ug_total))).sum
        ((presentVals ((other_df d l).map (fun r => r.ug_total))).length : Int)) :=
  map_pyInt_seriesMean _

/-- C1: the claim says that when both `peer_average` and `home_value` are
absent, the comparison block emits exactly one combined warning and neither
individual warning.  In the code, line 81 reassigns `avg_other` to the string
`"none"` before line 87 tests `avg_other is None`, so the combined branch is
unreachable; at a dataset with no rows for the selected language the block
emits the TWO individual warnings and still renders the comparison table. -/
theorem comparison_both_missing_emits_two_warnings :
    comparison_block exA "French" =
      Except.ok ([Warning.peerMissing, Warning.ouMissing], true) := rfl

/-- C2: the claim says the second download button serves the entire unfiltered
dataset independently of the selected language.  In the code it is passed the
same `csv` string as the first button — the ranking of the currently selected
language — so its payload changes with the selection and differs from the full
dataset; only its filename is fixed. -/
theorem all_data_export_depends_on_selection :
    (all_data_download exB "Spanish").data ≠ (all_data_download exB "French").data
    ∧ (all_data_download exB "Spanish").data ≠ full_dataset_csv exB
    ∧ (all_data_download exB "Spanish").file_name = "institutions.csv" :=
  ⟨by decide, by decide, rfl⟩

/-- C6: the claim says the comparison computation never raises when `UG TOTAL`
is absent on some rows.  On a dataset whose only OU row for the selected
language has an absent `UG TOTAL`, line 76 yields NaN (which is not `None`),
so line 77 evaluates `int(NaN)` and raises `ValueError`. -/
theorem comparison_raises_on_missing_ou_value :
    comparison_block exC6 "Spanish" =
      Except.error "ValueError: cannot convert float NaN to integer" := rfl

/-- C3 counterexample: with peer rows in 2020 (value 100) and 2021 (value 300),
the code's peer average is 200 — the mean over ALL years of the language —
while the mean over the year-2021 subset would be 300.  The comparison
aggregator therefore is not computed only over the year-filtered rows. -/
theorem comparison_not_year_filtered_cex :
    avg_other_val exC3 "Spanish" = some 200
    ∧ (peer_mean_year_filtered exC3 "Spanish").map pyInt = some 300
    ∧ avg_other_val exC3 "Spanish" ≠ (peer_mean_year_filtered exC3 "Spanish").map pyInt := by
  have h1 : avg_other_val exC3 "Spanish" = some 200 := by
    rw [avg_other_val_eq]
    decide
  have h2 : (peer_mean_year_filtered exC3 "Spanish").map pyInt = some 300 := by
    show (seriesMean (((yearFiltered exC3 "Spanish").filter
      (fun r => !(r.univ == homeUniv))).map (fun r => r.ug_total))).map pyInt = some 300
    rw [map_pyInt_seriesMean]
    decide
  exact ⟨h1, h2, by rw [h1, h2]; decide⟩

/-- C3 amended: the comparison aggregator (peer average and home value) is
computed over the language-filtered rows across ALL survey years: its two
frames are exactly the language+university filters of the full dataset, with
no year condition anywhere. -/
theorem comparison_over_all_years (d : List Row) (l : String) :
    other_df d l = d.filter (fun r => r.language == l && !(r.univ == homeUniv))
    ∧ ou_df d l = d.filter (fun r => r.language == l && r.univ == homeUniv)
    ∧ avg_other_val d l =
        (seriesMean ((d.filter (fun r => r.language == l && !(r.univ == homeUniv))).map
          (fun r => r.ug_total))).map pyInt := by
  have h1 : other_df d l = d.filter (fun r => r.language == l && !(r.univ == homeUniv)) := by
    unfold other_df lang_df
    rw [List.filter_filter]
    exact List.filter_congr (fun a _ => by rw [Bool.and_comm])
  have h2 : ou_df d l = d.filter (fun r => r.language == l && r.univ == homeUniv) := by
    unfold ou_df lang_df
    rw [List.filter_filter]
    exact List.filter_congr (fun a _ => by rw [Bool.and_comm])
  refine ⟨h1, h2, ?_⟩
  unfold avg_other_val
  rw [h1]

/-- C4 counterexample: the exported ranking CSV is serialized from
`ranking_df` — every dataset column plus `RANK` — not from the three-column
display table, so its header is not `RANK, UNIV, UG TOTAL`. -/
theorem ranking_export_columns_cex :
    (rankings_download exA "Spanish").data.1 ≠ ["RANK", "UNIV", "UG TOTAL"] := by
  decide

/-- C4 amended: the exported ranking CSV has a header row listing every dataset
column plus the appended `RANK` column (no pandas row-index column), one data
row of the same width per matching record, under a filename parameterized by
the selected language. -/
theorem ranking_export_shape (d : List Row) (l : String) :
    (rankings_download d l).data.1 = csvHeader
    ∧ (∀ row ∈ (rankings_download d l).data.2, row.length = csvHeader.length)
    ∧ (rankings_download d l).data.2.length = (yearFiltered d l).length
    ∧ (rankings_download d l).file_name = l ++ "_rankings.csv" := by
  refine ⟨rfl, ?_, ?_, rfl⟩
  · intro row hrow
    obtain ⟨p, _, hp⟩ := List.mem_map.mp hrow
    rw [← hp]
    rfl
  · show ((ranking_df d l).map rowCells).length = _
    unfold ranking_df ranking_rows
    rw [List.length_map, List.length_zip, List.length_range',
      (List.perm_insertionSort rowBefore (yearFiltered d l)).length_eq, Nat.min_self]

/-- Witness for `ranking_export_shape` at the spec's concrete Spanish
scenario: its top-ranked export row is five cells wide, and the export holds
one row per matching record. -/
theorem ranking_export_shape_witness :
    ([Cell.cs "Spanish", Cell.cs "THIRD U", Cell.ci 2021, Cell.co (some 700),
      Cell.cn 1].length = csvHeader.length)
    ∧ (rankings_download exA "Spanish").data.2.length = (yearFiltered exA "Spanish").length :=
  ⟨(ranking_export_shape exA "Spanish").2.1 _ (by decide),
   (ranking_export_shape exA "Spanish").2.2.1⟩

/-- C5: for every language and the target year, the ranking output is sorted
descending by `ug_total` (every pair of rows, adjacent ones in particular,
satisfies the descending order, absent values at the bottom), and the assigned
ranks are exactly the contiguous sequence 1..N where N is the number of
matching rows. -/
theorem ranking_sorted_and_ranks_contiguous (d : List Row) (l : String) :
    (ranking_df d l).map Prod.fst = List.range' 1 (yearFiltered d l).length
    ∧ List.Pairwise (fun x y => descPair x y = true)
        ((ranking_df d l).map (fun p => p.2.ug_total)) := by
  have hlen : (ranking_rows d l).length = (yearFiltered d l).length :=
    (List.perm_insertionSort rowBefore (yearFiltered d l)).length_eq
  constructor
  · unfold ranking_df
    rw [List.map_fst_zip _ _ (by rw [List.length_range']), hlen]
  · have hsnd : (ranking_df d l).map Prod.snd = ranking_rows d l := by
      unfold ranking_df
      exact List.map_snd_zip _ _ (by rw [List.length_range'])
    have hmm : (ranking_df d l).map (fun p => p.2.ug_total)
        = ((ranking_df d l).map Prod.snd).map (fun r => r.ug_total) := by
      rw [List.map_map]
      rfl
    rw [hmm, hsnd, List.pairwise_map]
    exact List.sorted_insertionSort rowBefore (yearFiltered d l)

/-- C10: in the ranking output, every row with an absent `ug_total` is placed
after all rows with a present value (pandas `na_position='last'`), and no row
is dropped — the sorted rows are a permutation of the year-filtered input — so
with ranks assigned positionally 1..N the absent-valued rows receive the
largest rank numbers. -/
theorem ranking_missing_values_last (d : List Row) (l : String) :
    List.Pairwise (fun a b => a.ug_total = none → b.ug_total = none) (ranking_rows d l)
    ∧ (ranking_rows d l).Perm (yearFiltered d l) := by
  have key : ∀ a b : Row, rowBefore a b → a.ug_total = none → b.ug_total = none := by
    intro a b hab ha
    unfold rowBefore at hab
    rw [ha] at hab
    cases hb : b.ug_total with
    | none => rfl
    | some w =>
      rw [hb] at hab
      simp [descPair] at hab
  exact ⟨(List.sorted_insertionSort rowBefore (yearFiltered d l)).imp
      (fun h => key _ _ h),
    List.perm_insertionSort rowBefore (yearFiltered d l)⟩

/-- The group keys of the trend group-by are the sorted distinct years. -/
lemma map_fst_groupby (rows : List Row) :
    (groupby_year_mean rows).map Prod.fst = yearsSorted rows := by
  unfold groupby_year_mean
  rw [List.map_map]
  exact List.map_id _

/-- The sorted distinct years are strictly increasing. -/
lemma pairwise_lt_yearsSorted (rows : List Row) :
    List.Pairwise (fun a b : Int => a < b) (yearsSorted rows) := by
  have hs : List.Sorted (fun a b : Int => a ≤ b) (yearsSorted rows) :=
    List.sorted_insertionSort _ _
  have hn : (yearsSorted rows).Nodup := by
    unfold yearsSorted
    exact (List.perm_insertionSort _ _).symm.nodup (List.nodup_dedup _)
  exact (List.Pairwise.and hs hn).imp (fun h => lt_of_le_of_ne h.1 h.2)

/-- C7: each of the two trend series produced by the per-year grouping is
strictly ascending by year, with no duplicate years. -/
theorem trend_years_strictly_ascending (d : List Row) (l : String) :
    List.Pairwise (fun a b : Int => a < b)
      ((groupby_year_mean (ou_lang_rows d l)).map Prod.fst)
    ∧ List.Pairwise (fun a b : Int => a < b)
      ((groupby_year_mean (aau_lang_rows d l)).map Prod.fst) := by
  rw [map_fst_groupby, map_fst_groupby]
  exact ⟨pairwise_lt_yearsSorted _, pairwise_lt_yearsSorted _⟩

/-- C8 counterexample: with peer values 1 and 2 the exact arithmetic mean is
3/2, but the displayed peer average is `int(1.5) = 1`, so the displayed value
does not equal the exact mean. -/
theorem peer_average_not_exact_mean_cex :
    avg_other_val exC8 "Spanish" = some 1
    ∧ peer_mean_spec exC8 "Spanish" = some ((3 : Rat) / (2 : Rat))
    ∧ (avg_other_val exC8 "Spanish").map (fun n => ((n : Int) : Rat))
        ≠ peer_mean_spec exC8 "Spanish" := by
  have h1 : avg_other_val exC8 "Spanish" = some 1 := by
    rw [avg_other_val_eq]
    decide
  have hx : (other_df exC8 "Spanish").map (fun r => r.ug_total) = [some 1, some 2] := by
    decide
  have hp : presentVals [some (1 : Int), some 2] = [1, 2] := by decide
  have h2 : peer_mean_spec exC8 "Spanish" = some ((3 : Rat) / (2 : Rat)) := by
    show seriesMean ((other_df exC8 "Spanish").map (fun r => r.ug_total))
      = some ((3 : Rat) / (2 : Rat))
    rw [hx, seriesMean_eq, hp]
    norm_num
  refine ⟨h1, h2, ?_⟩
  rw [h1, h2]
  intro hcontra
  rw [Option.map_some', Option.some.injEq] at hcontra
  norm_num at hcontra

/-- C8 amended: the displayed peer average is the exact arithmetic mean of the
peers' present `ug_total` values truncated toward zero by `int()` — computed
as the truncating integer division of their sum by their count — and it is
absent (never zero) when the peer set is empty. -/
theorem peer_average_is_truncated_mean (d : List Row) (l : String) :
    avg_other_val d l = (peer_mean_spec d l).map pyInt
    ∧ (presentVals ((other_df d l).map (fun r => r.ug_total)) ≠ [] →
        avg_other_val d l = some (Int.tdiv
          (presentVals ((other_df d l).map (fun r => r.ug_total))).sum
          ((presentVals ((other_df d l).map (fun r => r.ug_total))).length : Int)))
    ∧ (other_df d l = [] → avg_other_val d l = none) := by
  refine ⟨rfl, ?_, ?_⟩
  · intro hne
    rw [avg_other_val_eq,
      if_neg (fun hc => hne (List.length_eq_zero.mp hc))]
  · intro h0
    rw [avg_other_val_eq, h0]
    rfl

/-- Witness for `peer_average_is_truncated_mean`: at the concrete peers
{1, 2} the displayed value is the truncated mean, and for a language with no
peer rows the displayed value is absent. -/
theorem peer_average_is_truncated_mean_witness :
    avg_other_val exC8 "Spanish" = some (Int.tdiv
      (presentVals ((other_df exC8 "Spanish").map (fun r => r.ug_total))).sum
      ((presentVals ((other_df exC8 "Spanish").map (fun r => r.ug_total))).length : Int))
    ∧ avg_other_val exNoPeers "French" = none :=
  ⟨(peer_average_is_truncated_mean exC8 "Spanish").2.1 (by decide),
   (peer_average_is_truncated_mean exNoPeers "French").2.2 (by decide)⟩

/-- A nonempty row set yields a nonempty sorted year list. -/
lemma yearsSorted_ne_nil (rows : List Row) (h : rows ≠ []) :
    yearsSorted rows ≠ [] := by
  intro hc
  have hp : (yearsSorted rows).Perm ((rows.map (fun r => r.srvy_year)).dedup) := by
    unfold yearsSorted
    exact List.perm_insertionSort _ _
  rw [hc] at hp
  have h2 : (rows.map (fun r => r.srvy_year)).dedup = [] :=
    List.length_eq_zero.mp (hp.length_eq.symm)
  rw [List.dedup_eq_nil, List.map_eq_nil_iff] at h2
  exact h h2

/-- A nonempty row set yields a nonempty grouped series. -/
lemma groupby_year_mean_ne_nil (rows : List Row) (h : rows ≠ []) :
    groupby_year_mean rows ≠ [] := by
  intro hc
  unfold groupby_year_mean at hc
  rw [List.map_eq_nil_iff] at hc
  exact yearsSorted_ne_nil rows h hc

/-- C9: for every language occurring in the dataset — the dropdown is
populated from the dataset's LANGUAGE values — the trend function's early
no-data return never fires, and the rendered chart has at least one non-empty
series. -/
theorem trend_no_data_unreachable (d : List Row) (l : String)
    (h : l ∈ d.map (fun r => r.language)) :
    ∃ w og ag, lang_compare_streamlit d l = TrendResult.chart w og ag
      ∧ (og ≠ [] ∨ ag ≠ []) := by
  obtain ⟨r, hr, hrl⟩ := List.mem_map.mp h
  have hsplit : r ∈ ou_lang_rows d l ∨ r ∈ aau_lang_rows d l := by
    by_cases hu : (r.univ == homeUniv) = true
    · left
      exact List.mem_filter.mpr ⟨List.mem_filter.mpr ⟨hr, hu⟩, by simp [hrl]⟩
    · right
      simp only [Bool.not_eq_true] at hu
      exact List.mem_filter.mpr ⟨List.mem_filter.mpr ⟨hr, by simp [hu]⟩, by simp [hrl]⟩
  have hne : ¬(ou_lang_rows d l = [] ∧ aau_lang_rows d l = []) := by
    rintro ⟨h1, h2⟩
    rcases hsplit with hm | hm
    · rw [h1] at hm
      exact List.not_mem_nil r hm
    · rw [h2] at hm
      exact List.not_mem_nil r hm
  have hchart : lang_compare_streamlit d l =
      TrendResult.chart
        ((if groupby_year_mean (ou_lang_rows d l) = [] then [Warning.ouMissing] else []) ++
         (if groupby_year_mean (aau_lang_rows d l) = [] then [Warning.peerMissing] else []))
        (groupby_year_mean (ou_lang_rows d l))
        (groupby_year_mean (aau_lang_rows d l)) := by
    unfold lang_compare_streamlit
    rw [if_neg hne]
  refine ⟨_, _, _, hchart, ?_⟩
  rcases hsplit with hm | hm
  · exact Or.inl (groupby_year_mean_ne_nil _ (List.ne_nil_of_mem hm))
  · exact Or.inr (groupby_year_mean_ne_nil _ (List.ne_nil_of_mem hm))

/-- Witness for `trend_no_data_unreachable`: the spec's concrete Spanish
dataset renders a chart with a non-empty series. -/
theorem trend_no_data_unreachable_witness :
    ∃ w og ag, lang_compare_streamlit exA "Spanish" = TrendResult.chart w og ag
      ∧ (og ≠ [] ∨ ag ≠ []) :=
  trend_no_data_unreachable exA "Spanish" (by decide)
